import Mathlib

/-!
Shallow embedding of the TaskRelay client access layer
(`src/config/firebase.js`) and role router (`src/navigation/AppNavigator.js`).

JavaScript errors are modelled as `Except String` values carrying the thrown
`Error`'s message string.  Remote services (Firebase Auth / Firestore) are
modelled by explicit outcome parameters: each remote call's result is an input
to the embedded function, and the function's output records which remote
operations were performed, so that "before any remote call" and "no mutation"
claims are statable.  JS string truthiness (`!s`) is `s = ""` for strings.
-/

namespace TaskRelay

/-- Remote operations that `signUp` can perform against the backing services.
`deleteIdentity` exists in the vocabulary only to state that `signUp` never
performs a compensating rollback; the source contains no such call. -/
inductive RemoteCall where
  | createIdentity
  | putProfile
  | readProfile
  | deleteIdentity
deriving DecidableEq, Repr

/-- Outcomes of the remote calls `signUp` makes, supplied as inputs to the
model.  `createIdentity` returns the new uid or the service's error message;
`putProfile` is the `setDoc` outcome; `profileVisible` is what the
verification `getDoc(...).exists()` reports after a successful `setDoc`. -/
structure SignUpWorld where
  createIdentity : Except String String
  putProfile : Except String Unit
  profileVisible : Bool
deriving Repr

/-- Message of the verification failure in `signUp`
(`throw new Error('Failed to create user profile')`), the error the spec's
taxonomy names `ProfileCreationError`. -/
def profileCreationErrorMsg : String := "Failed to create user profile"

/-- The `error.message || 'fallback'` rewrapping idiom used by every
catch-block in `firebase.js`. -/
def rewrap (msg fallback : String) : String :=
  if msg = "" then fallback else msg

/-- Embedding of `signUp(email, password, name, role)` from
`src/config/firebase.js` lines 41-78.  Validations run in source order before
any remote call; afterwards the auth account is created, the profile document
written, and its existence verified.  The catch-block rewraps any thrown
message with fallback `'Failed to create account'`.  Output: the result
together with the list of remote calls performed, in order. -/
def signUp (email password name role : String) (w : SignUpWorld) :
    Except String String × List RemoteCall :=
  if email = "" ∨ password = "" ∨ name = "" ∨ role = "" then
    (.error "All fields are required", [])
  else if password.length < 6 then
    (.error "Password must be at least 6 characters", [])
  else if ¬ (role = "client" ∨ role = "admin") then
    (.error "Role must be either \"client\" or \"admin\"", [])
  else
    match w.createIdentity with
    | .error e => (.error (rewrap e "Failed to create account"), [.createIdentity])
    | .ok uid =>
      match w.putProfile with
      | .error e =>
          (.error (rewrap e "Failed to create account"),
           [.createIdentity, .putProfile])
      | .ok _ =>
          if w.profileVisible then
            (.ok uid, [.createIdentity, .putProfile, .readProfile])
          else
            (.error profileCreationErrorMsg,
             [.createIdentity, .putProfile, .readProfile])

/-- The three local-validation messages `signUp` can throw before any remote
call (the spec's `ValidationError` family for `register`). -/
def signUpValidationMsgs : List String :=
  ["All fields are required",
   "Password must be at least 6 characters",
   "Role must be either \"client\" or \"admin\""]

/-- Outcome of the underlying `signInWithEmailAndPassword` call: success with
a uid, or a service failure carrying Firebase's error `code` and `message`. -/
inductive AuthAttempt where
  | ok (uid : String)
  | fail (code : String) (message : String)
deriving DecidableEq, Repr

/-- Embedding of `signIn(email, password)` from `src/config/firebase.js`
lines 87-106.  The empty-input check throws inside the `try`; its error has no
`code`, so the catch-block's generic branch rethrows the same message.  The
catch-block inspects `error.code` in source order. -/
def signIn (email password : String) (svc : AuthAttempt) : Except String String :=
  if email = "" ∨ password = "" then
    .error "Email and password are required"
  else
    match svc with
    | .ok uid => .ok uid
    | .fail code msg =>
      if code = "auth/user-not-found" then
        .error "No account found with this email"
      else if code = "auth/wrong-password" then
        .error "Incorrect password"
      else if code = "auth/invalid-email" then
        .error "Invalid email address"
      else
        .error (rewrap msg "Failed to sign in")

/-- Result of `getUserRole`: the outcome plus how many Firestore reads were
performed.  One delay of 500ms happens before every read but the first, so
the total back-off in milliseconds is `(attemptsUsed - 1) * 500`. -/
structure RoleFetch where
  result : Except String String
  attemptsUsed : Nat
deriving Repr

/-- Total fixed back-off (ms) spent by a `getUserRole` run. -/
def RoleFetch.totalDelayMs (f : RoleFetch) : Nat := (f.attemptsUsed - 1) * 500

/-- Recursive core of `getUserRole` (lines 142-158 of
`src/config/firebase.js`).  `reads k` is what the k-th `getDoc` of the user
document observes: `none` = document does not exist; `some d` = it exists with
role field `d` (`none` or `""` both fail the JS `!userData.role` truthiness
test).  On a missing document with retries left, the code waits 500ms and
recurses with `retries - 1`.  `roleOfDoc` is the document-present case: a
missing or empty role field fails with the `RoleMissing` message, otherwise
the stored role is returned. -/
def roleOfDoc (d : Option String) (attempt : Nat) : RoleFetch :=
  match d with
  | none => ⟨.error "User role not found", attempt + 1⟩
  | some role =>
    if role = "" then ⟨.error "User role not found", attempt + 1⟩
    else ⟨.ok role, attempt + 1⟩

def getUserRoleAux (reads : Nat → Option (Option String)) :
    Nat → Nat → RoleFetch
  | attempt, 0 =>
    match reads attempt with
    | none => ⟨.error "User profile not found", attempt + 1⟩
    | some d => roleOfDoc d attempt
  | attempt, r + 1 =>
    match reads attempt with
    | none => getUserRoleAux reads (attempt + 1) r
    | some d => roleOfDoc d attempt

/-- Embedding of `getUserRole(userId, retries = 3)` from
`src/config/firebase.js` lines 135-162.  The catch-block rewraps with the same
message, so it is omitted. -/
def getUserRole (userId : String) (reads : Nat → Option (Option String))
    (retries : Nat := 3) : RoleFetch :=
  if userId = "" then ⟨.error "User ID is required", 0⟩
  else getUserRoleAux reads 0 retries

/-- JS `String.prototype.trim()`: strips leading and trailing whitespace.
Defined structurally over the character list so that it evaluates on
concrete inputs. -/
def jsTrim (s : String) : String :=
  ⟨((s.data.dropWhile Char.isWhitespace).reverse.dropWhile
      Char.isWhitespace).reverse⟩

/-- The ticket document handed to `tickets.add(...)` by `createTicket`
(lines 205-216 of `src/config/firebase.js`).  `createdAt` stands for the
server-assigned timestamp token. -/
structure TicketDoc where
  title : String
  description : String
  type : String
  status : String
  clientId : String
  clientName : String
  clientEmail : String
  createdAt : Nat
deriving DecidableEq, Repr

/-- Remote-call outcomes for one `createTicket` run.  `currentUser` is the
cached identity `(uid, email)` or `none`; `nameDoc` is the `users/{uid}`
`getDoc` outcome (`.error` = read threw, `.ok none` = document missing,
`.ok (some nm)` = document exists with name field `nm`, where a missing or
empty name fails the JS `userData.name || email` truthiness test);
`addResult` is the Firestore `add` outcome; `now` the server timestamp. -/
structure CtWorld where
  currentUser : Option (String × String)
  nameDoc : Except String (Option (Option String))
  addResult : Except String String
  now : Nat

/-- Output of a `createTicket` run: the result, the document actually
persisted by a successful `add` (if reached and successful), and whether the
`users/{uid}` lookup was attempted (the first remote call on this path). -/
structure CtOut where
  result : Except String String
  added : Option TicketDoc
  lookedUp : Bool

/-- Embedding of `createTicket(title, description, type)` from
`src/config/firebase.js` lines 172-222.  Auth check first, then validation of
the raw (untrimmed) inputs, then the display-name lookup whose failure is
swallowed, then the `add` with trimmed title/description and status fixed to
`'open'`. -/
def createTicket (title description type : String) (w : CtWorld) : CtOut :=
  match w.currentUser with
  | none => ⟨.error "You must be logged in to create a ticket", none, false⟩
  | some (uid, email) =>
    if title = "" ∨ description = "" ∨ type = "" then
      ⟨.error "All fields are required", none, false⟩
    else if ¬ (type = "bug" ∨ type = "feature") then
      ⟨.error "Type must be either \"bug\" or \"feature\"", none, false⟩
    else
      let clientName :=
        match w.nameDoc with
        | .error _ => email
        | .ok none => email
        | .ok (some nm) =>
          match nm with
          | none => email
          | some n => if n = "" then email else n
      match w.addResult with
      | .error e => ⟨.error (rewrap e "Failed to create ticket"), none, true⟩
      | .ok tid =>
        ⟨.ok tid,
         some ⟨jsTrim title, jsTrim description, type, "open", uid, clientName,
               email, w.now⟩,
         true⟩

/-- Embedding of `handleSubmit` in
`src/screens/client/CreateTicketScreen.js` lines 40-68: the screen refuses
whitespace-only title or description before calling `createTicket`, and
passes the trimmed strings.  `none` = the alert path, `createTicket` never
called. -/
def handleSubmit (title description type : String) (w : CtWorld) :
    Option CtOut :=
  if jsTrim title = "" ∨ jsTrim description = "" then none
  else some (createTicket (jsTrim title) (jsTrim description) type w)

/-- The allowed ticket statuses, in the order of `validStatuses` in
`updateTicketStatus`. -/
def validStatuses : List String := ["open", "in-progress", "resolved", "closed"]

/-- The `InvalidStatus` message built by `updateTicketStatus` via
`validStatuses.join(', ')`. -/
def invalidStatusMsg : String :=
  "Status must be one of: " ++ String.intercalate ", " validStatuses

/-- A stored ticket record, reduced to the fields `updateTicketStatus`
touches. -/
structure TicketRec where
  status : String
  updatedAt : Option Nat
deriving DecidableEq, Repr

/-- Embedding of `updateTicketStatus(ticketId, status)` from
`src/config/firebase.js` lines 302-321 over an explicit ticket store (assoc
list id → record).  Both validations run before the `updateDoc`; `svc` is the
`updateDoc` outcome (an `.error` models e.g. a missing document, rejected by
the service with the store unchanged); on success the matching record's
status and `updatedAt` are set.  Returns the result and the store after the
call. -/
def updateTicketStatus (ticketId status : String)
    (store : List (String × TicketRec)) (now : Nat) (svc : Except String Unit) :
    Except String Unit × List (String × TicketRec) :=
  if ticketId = "" then
    (.error "Ticket ID is required", store)
  else if ¬ status ∈ validStatuses then
    (.error invalidStatusMsg, store)
  else
    match svc with
    | .error e => (.error (rewrap e "Failed to update ticket status"), store)
    | .ok _ =>
      (.ok (),
       store.map (fun p =>
         if p.1 = ticketId then (p.1, ⟨status, some now⟩) else p))

/-- A ticket as observed by a subscription snapshot: document id plus the
fields the queries constrain. -/
structure TicketSnap where
  id : String
  clientId : String
  createdAt : Nat
deriving DecidableEq, Repr

/-- Creation-time-descending order used by both ticket queries
(`orderBy('createdAt', 'desc')`). -/
def byCreatedDesc (a b : TicketSnap) : Prop := b.createdAt ≤ a.createdAt

instance : DecidableRel byCreatedDesc := fun _ _ => Nat.decLe _ _

instance : IsTotal TicketSnap byCreatedDesc :=
  ⟨fun a b => (Nat.le_total a.createdAt b.createdAt).symm⟩

instance : IsTrans TicketSnap byCreatedDesc :=
  ⟨fun _ _ _ h h2 => Nat.le_trans h2 h⟩

/-- Model of the external Ticket Store's subscription contract (spec section
6, consumed by `getMyTickets` / `getAllTickets`): an optional equality filter
on `clientId` and creation-time-descending order; every delivery to the
snapshot callback is the full current matching set in that order. -/
def deliverSnapshot (filter : Option String) (store : List TicketSnap) :
    List TicketSnap :=
  let base : List TicketSnap :=
    match filter with
    | some uid => store.filter (fun t => t.clientId == uid)
    | none => store
  base.insertionSort byCreatedDesc

/-- Embedding of the query set up by `getMyTickets` in
`src/config/firebase.js` lines 231-248: with no cached identity it throws
`'You must be logged in to view tickets'`; otherwise it subscribes with the
filter `clientId == currentUser.uid`.  The returned value is the
subscription's filter, to be interpreted by `deliverSnapshot`. -/
def getMyTickets (currentUser : Option (String × String)) :
    Except String (Option String) :=
  match currentUser with
  | none => .error "You must be logged in to view tickets"
  | some (uid, _) => .ok (some uid)

/-- Embedding of the query set up by `getAllTickets` (lines 273-293): no
filter, same descending order. -/
def getAllTickets : Option String := none

/-- Role Router state (`AppNavigator`'s `user`, `userRole`, `error`,
`loading` states). -/
structure RouterState where
  user : Option String
  userRole : Option String
  error : Option String
  loading : Bool
deriving DecidableEq, Repr

/-- Initial router state (`useState(null)` three times, `loading = true`). -/
def initialRouterState : RouterState := ⟨none, none, none, true⟩

/-- Outcome of the `getUserRole` call made by the router's auth callback.
`err` carries the thrown message and the outcome of the forced `signOut()`
attempted in the catch-block (`signOut` itself can throw
`'Failed to sign out'`). -/
inductive RoleOutcome where
  | ok (role : String)
  | err (msg : String) (signOutOk : Bool)
deriving DecidableEq, Repr

/-- A session-change notification delivered to the router's
`onAuthStateChanged` callback. -/
inductive AuthEvent where
  | signedIn (uid : String) (res : RoleOutcome)
  | signedOut
deriving DecidableEq, Repr

/-- One step of the Role Router: the `onAuthStateChanged` callback in
`src/navigation/AppNavigator.js` lines 84-109.  With an identity present it
resolves the role: on success it stores role and user and clears the error;
on failure it stores the error message and forces `signOut()`, and only if
that succeeds does it reach the `setUser(null)`/`setUserRole(null)` lines
(an exception from `signOut` escapes the catch-block, skipping them); the
`finally` clears `loading` in every case.  Returns the next state and whether
`signOut()` was invoked. -/
def routerStep (s : RouterState) (e : AuthEvent) : RouterState × Bool :=
  match e with
  | .signedOut => (⟨none, none, none, false⟩, false)
  | .signedIn uid res =>
    match res with
    | .ok role => (⟨some uid, some role, none, false⟩, false)
    | .err m signOutOk =>
      if signOutOk then (⟨none, none, some m, false⟩, true)
      else (⟨s.user, s.userRole, some m, false⟩, true)

/-- The three UI modes of the role-gated navigation surface. -/
inductive UIMode where
  | unauthenticated
  | client
  | admin
deriving DecidableEq, Repr

/-- The render dispatch of `AppNavigator` (lines 114-136): `loading` renders
null; no user renders the auth stack; role `'client'` / `'admin'` render the
respective tab sets; any other role with a user present renders the `: null`
branch — an empty navigator, `none` of the three modes. -/
def renderMode (s : RouterState) : Option UIMode :=
  if s.loading then none
  else if s.user.isNone then some .unauthenticated
  else if s.userRole = some "client" then some .client
  else if s.userRole = some "admin" then some .admin
  else none

/-- Reachability of a router state from the initial state via `routerStep`
under arbitrary event sequences. -/
inductive ReachableRouter : RouterState → Prop where
  | init : ReachableRouter initialRouterState
  | step {s : RouterState} (e : AuthEvent) :
      ReachableRouter s → ReachableRouter (routerStep s e).1

/-! ## Theorems settling the claims -/

/-- C1: every successful `createTicket` call persists a ticket whose status
is exactly `"open"` and whose `clientId` is the uid of the identity that was
cached at call time, whatever title, description and type were supplied; with
no identity the call fails with the `NotAuthenticated` message
(`'You must be logged in to create a ticket'`) and performs no remote call
and persists nothing. -/
theorem createTicket_open_status_owner (title description type : String)
    (w : CtWorld) :
    (w.currentUser = none →
        (createTicket title description type w).result =
          .error "You must be logged in to create a ticket" ∧
        (createTicket title description type w).added = none ∧
        (createTicket title description type w).lookedUp = false) ∧
    (∀ tid, (createTicket title description type w).result = .ok tid →
        ∃ uid email, w.currentUser = some (uid, email) ∧
          (createTicket title description type w).added.map TicketDoc.status =
            some "open" ∧
          (createTicket title description type w).added.map TicketDoc.clientId =
            some uid) := by
  constructor
  · intro h
    simp [createTicket, h]
  · intro tid h
    rcases hu : w.currentUser with _ | ⟨uid, email⟩
    · simp [createTicket, hu] at h
    · by_cases h1 : title = "" ∨ description = "" ∨ type = ""
      · simp [createTicket, hu, h1] at h
      · by_cases h2 : type = "bug" ∨ type = "feature"
        · rcases ha : w.addResult with e | tid'
          · simp [createTicket, hu, h1, h2, ha] at h
          · refine ⟨uid, email, rfl, ?_, ?_⟩ <;>
              simp [createTicket, hu, h1, h2, ha]
        · simp [createTicket, hu, h1, h2] at h

/-- Witness for C1: with no cached identity the call fails and creates
nothing. -/
theorem createTicket_open_status_owner_witness :
    (createTicket "t" "d" "bug"
        ⟨none, .ok none, .ok "t1", 0⟩).result =
      .error "You must be logged in to create a ticket" ∧
    (createTicket "t" "d" "bug" ⟨none, .ok none, .ok "t1", 0⟩).added = none ∧
    (createTicket "t" "d" "bug" ⟨none, .ok none, .ok "t1", 0⟩).lookedUp = false :=
  (createTicket_open_status_owner "t" "d" "bug" _).1 rfl

/-- C3: `signUp` with an empty field, a password shorter than 6 characters,
or a role outside `{client, admin}` fails with one of the three local
validation messages and performs no remote call at all: no identity is
created and no profile document is written. -/
theorem signUp_validation_before_remote (email password name role : String)
    (w : SignUpWorld)
    (h : email = "" ∨ password = "" ∨ name = "" ∨ role = "" ∨
         password.length < 6 ∨ ¬ (role = "client" ∨ role = "admin")) :
    (signUp email password name role w).2 = [] ∧
    ∃ m, (signUp email password name role w).1 = .error m ∧
      m ∈ signUpValidationMsgs := by
  by_cases h1 : email = "" ∨ password = "" ∨ name = "" ∨ role = ""
  · refine ⟨?_, "All fields are required", ?_, by simp [signUpValidationMsgs]⟩ <;>
      simp [signUp, h1]
  · by_cases h2 : password.length < 6
    · refine ⟨?_, "Password must be at least 6 characters", ?_,
        by simp [signUpValidationMsgs]⟩ <;> simp [signUp, h1, h2]
    · by_cases h3 : role = "client" ∨ role = "admin"
      · exfalso
        push_neg at h1
        rcases h with h | h | h | h | h | h
        · exact h1.1 h
        · exact h1.2.1 h
        · exact h1.2.2.1 h
        · exact h1.2.2.2 h
        · exact h2 h
        · exact h h3
      · refine ⟨?_, "Role must be either \"client\" or \"admin\"", ?_,
          by simp [signUpValidationMsgs]⟩ <;> simp [signUp, h1, h2, h3]

/-- Witness for C3: an empty email is rejected with no remote call. -/
theorem signUp_validation_before_remote_witness :
    (signUp "" "secret1" "Ann" "client" ⟨.ok "u1", .ok (), true⟩).2 = [] :=
  (signUp_validation_before_remote "" "secret1" "Ann" "client"
    ⟨.ok "u1", .ok (), true⟩ (Or.inl rfl)).1

/-- C9: `signIn` discriminates failures by the service's error code:
`auth/wrong-password` yields the `InvalidCredentials` message,
`auth/user-not-found` the `UserNotFound` message, `auth/invalid-email` the
`InvalidEmail` message, and any other code is rewrapped into a generic error
carrying the service's message (or the `'Failed to sign in'` fallback), so a
raw service error object never escapes unwrapped. -/
theorem signIn_error_discrimination (email password code msg : String)
    (he : email ≠ "") (hp : password ≠ "") :
    signIn email password (.fail "auth/wrong-password" msg) =
      .error "Incorrect password" ∧
    signIn email password (.fail "auth/user-not-found" msg) =
      .error "No account found with this email" ∧
    signIn email password (.fail "auth/invalid-email" msg) =
      .error "Invalid email address" ∧
    (code ≠ "auth/user-not-found" → code ≠ "auth/wrong-password" →
      code ≠ "auth/invalid-email" →
      signIn email password (.fail code msg) =
        .error (rewrap msg "Failed to sign in")) := by
  refine ⟨?_, ?_, ?_, ?_⟩ <;>
    simp [signIn, he, hp]
  intro h1 h2 h3
  simp [h1, h2, h3]

/-- Witness for C9: a wrong password against an existing account fails with
the `InvalidCredentials` message. -/
theorem signIn_error_discrimination_witness :
    signIn "x@x.com" "wrong" (.fail "auth/wrong-password" "raw") =
      .error "Incorrect password" :=
  (signIn_error_discrimination "x@x.com" "wrong" "other" "raw"
    (by decide) (by decide)).1

/-- C2 counterexample: with the empty ticketId and an invalid status,
`updateTicketStatus` fails with the `'Ticket ID is required'` message — the
ticketId guard runs first — not with the `InvalidStatus` message naming the
allowed set, refuting the claim's "for every ticketId".  (The store is still
unchanged.) -/
theorem updateTicketStatus_emptyId_counterexample :
    (updateTicketStatus "" "bogus" [] 0 (.ok ())).1 =
      .error "Ticket ID is required" ∧
    "Ticket ID is required" ≠ invalidStatusMsg ∧
    (updateTicketStatus "" "bogus" [] 0 (.ok ())).2 = [] :=
  ⟨rfl, by decide, rfl⟩

/-- C2 amended: for every NON-EMPTY ticketId and status outside
{open, in-progress, resolved, closed}, `updateTicketStatus` fails with the
`InvalidStatus` message, which names the full allowed set, and the ticket
store is unchanged; with the empty ticketId it fails with
`'Ticket ID is required'`, also without mutation. -/
theorem updateTicketStatus_invalid_status_no_mutation
    (ticketId status : String) (store : List (String × TicketRec)) (now : Nat)
    (svc : Except String Unit) (hs : ¬ status ∈ validStatuses) :
    (ticketId ≠ "" →
      updateTicketStatus ticketId status store now svc =
        (.error invalidStatusMsg, store)) ∧
    (ticketId = "" →
      updateTicketStatus ticketId status store now svc =
        (.error "Ticket ID is required", store)) ∧
    invalidStatusMsg =
      "Status must be one of: open, in-progress, resolved, closed" := by
  refine ⟨fun ht => ?_, fun ht => ?_, by decide⟩
  · simp [updateTicketStatus, ht, hs]
  · simp [updateTicketStatus, ht]

/-- Witness for the amended C2: a non-empty id with a bogus status gets the
`InvalidStatus` message and the store is untouched. -/
theorem updateTicketStatus_invalid_status_no_mutation_witness :
    updateTicketStatus "t1" "bogus" [("t1", ⟨"open", none⟩)] 7 (.ok ()) =
      (.error invalidStatusMsg, [("t1", ⟨"open", none⟩)]) :=
  (updateTicketStatus_invalid_status_no_mutation "t1" "bogus"
    [("t1", ⟨"open", none⟩)] 7 (.ok ()) (by decide)).1 (by decide)

/-- C8 counterexample: with an authenticated user, `createTicket` accepts a
whitespace-only title — the claim says it must fail with a `ValidationError`
when the trimmed title is empty — and persists the ticket with the trimmed,
i.e. empty, title.  (`createTicket` checks only untrimmed emptiness and never
checks the 100-character bound.) -/
theorem createTicket_whitespace_title_counterexample :
    (createTicket " " "desc" "bug"
        ⟨some ("u1", "e@x"), .ok none, .ok "t1", 0⟩).result = .ok "t1" ∧
    jsTrim " " = "" ∧
    (createTicket " " "desc" "bug"
        ⟨some ("u1", "e@x"), .ok none, .ok "t1", 0⟩).added =
      some ⟨"", "desc", "bug", "open", "u1", "e@x", "e@x", 0⟩ :=
  ⟨rfl, by decide, by decide⟩

/-- C8 amended: `createTicket` itself validates only that the raw (untrimmed)
title, description and type are non-empty — failing with
`'All fields are required'` before any remote call — and that the type is in
{bug, feature}; it performs no trimmed-emptiness and no 100-character check,
so any call with non-empty raw title/description and a valid type succeeds
whenever the store accepts the `add`.  The trimmed-non-emptiness check is
done by `CreateTicketScreen.handleSubmit` before calling `createTicket` (and
the 100-character cap only by the title input's `maxLength`). -/
theorem createTicket_untrimmed_validation (title description type : String)
    (w : CtWorld) (p : String × String) (hu : w.currentUser = some p) :
    ((title = "" ∨ description = "" ∨ type = "") →
        (createTicket title description type w).result =
          .error "All fields are required" ∧
        (createTicket title description type w).added = none ∧
        (createTicket title description type w).lookedUp = false) ∧
    (∀ tid, title ≠ "" → description ≠ "" → (type = "bug" ∨ type = "feature") →
        w.addResult = .ok tid →
        (createTicket title description type w).result = .ok tid) ∧
    (jsTrim title = "" ∨ jsTrim description = "" →
        handleSubmit title description type w = none) := by
  refine ⟨fun h1 => ?_, fun tid ht hd h2 ha => ?_, fun h => ?_⟩
  · obtain ⟨uid, email⟩ := p
    refine ⟨?_, ?_, ?_⟩ <;> simp [createTicket, hu, h1]
  · obtain ⟨uid, email⟩ := p
    have h1 : ¬ (title = "" ∨ description = "" ∨ type = "") := by
      rintro (h | h | h)
      · exact ht h
      · exact hd h
      · rcases h2 with h2 | h2 <;> simp [h2] at h
    simp [createTicket, hu, h1, h2, ha]
  · simp only [handleSubmit]
    rw [if_pos h]

/-- Witness for the amended C8: an empty raw title is rejected before any
remote call. -/
theorem createTicket_untrimmed_validation_witness :
    (createTicket "" "desc" "bug"
        ⟨some ("u1", "e@x"), .ok none, .ok "t1", 0⟩).result =
      .error "All fields are required" ∧
    (createTicket "" "desc" "bug"
        ⟨some ("u1", "e@x"), .ok none, .ok "t1", 0⟩).added = none ∧
    (createTicket "" "desc" "bug"
        ⟨some ("u1", "e@x"), .ok none, .ok "t1", 0⟩).lookedUp = false :=
  (createTicket_untrimmed_validation "" "desc" "bug"
    ⟨some ("u1", "e@x"), .ok none, .ok "t1", 0⟩ ("u1", "e@x") rfl).1
    (Or.inl rfl)

/-- C4 counterexample: when the profile write itself (`setDoc`) fails after
the identity was created, `signUp`'s catch-block rewraps the service's own
message — here `'network down'` — which is not the `ProfileCreationError`
message `'Failed to create user profile'` that the claim asserts for every
post-identity failure.  The created identity still persists (no
`deleteIdentity` in the trace). -/
theorem signUp_profile_write_failure_counterexample :
    (signUp "a@b.c" "secret" "Ann" "client"
        ⟨.ok "u1", .error "network down", true⟩).1 = .error "network down" ∧
    "network down" ≠ profileCreationErrorMsg ∧
    RemoteCall.createIdentity ∈
      (signUp "a@b.c" "secret" "Ann" "client"
        ⟨.ok "u1", .error "network down", true⟩).2 ∧
    RemoteCall.deleteIdentity ∉
      (signUp "a@b.c" "secret" "Ann" "client"
        ⟨.ok "u1", .error "network down", true⟩).2 :=
  ⟨rfl, by decide, by decide, by decide⟩

/-- C4 amended: `signUp` is not atomic and performs no compensating rollback.
With valid inputs and a created identity: if verification of the profile
fails, the call fails with the `ProfileCreationError` message; if the profile
write itself fails, the call fails with the rewrapped underlying write error;
in every case — indeed on every path of `signUp` whatsoever — the identity is
never deleted, so it persists with no matching profile on these error
paths. -/
theorem signUp_identity_persists_no_rollback (email password name role : String)
    (w : SignUpWorld) (uid e : String)
    (h1 : ¬ (email = "" ∨ password = "" ∨ name = "" ∨ role = ""))
    (h2 : ¬ password.length < 6)
    (h3 : role = "client" ∨ role = "admin") :
    (w.createIdentity = .ok uid → w.putProfile = .ok () →
      w.profileVisible = false →
      (signUp email password name role w).1 = .error profileCreationErrorMsg ∧
      (signUp email password name role w).2 =
        [.createIdentity, .putProfile, .readProfile]) ∧
    (w.createIdentity = .ok uid → w.putProfile = .error e →
      (signUp email password name role w).1 =
        .error (rewrap e "Failed to create account") ∧
      (signUp email password name role w).2 = [.createIdentity, .putProfile]) ∧
    RemoteCall.deleteIdentity ∉ (signUp email password name role w).2 := by
  have h3' : ¬ ¬ (role = "client" ∨ role = "admin") := not_not_intro h3
  refine ⟨fun hc hp hv => ?_, fun hc hp => ?_, ?_⟩
  · constructor <;> simp [signUp, h1, h2, h3', hc, hp, hv]
  · constructor <;> simp [signUp, h1, h2, h3', hc, hp]
  · unfold signUp
    split_ifs <;>
      first
        | simp
        | (rcases w.createIdentity with e1 | u1 <;>
            rcases hp : w.putProfile with e2 | u2 <;>
            simp [hp])

/-- Witness for the amended C4: verification failure after identity creation
yields `ProfileCreationError` while the identity was created and is never
rolled back. -/
theorem signUp_identity_persists_no_rollback_witness :
    (signUp "a@b.c" "secret" "Ann" "client" ⟨.ok "u1", .ok (), false⟩).1 =
      .error profileCreationErrorMsg ∧
    (signUp "a@b.c" "secret" "Ann" "client" ⟨.ok "u1", .ok (), false⟩).2 =
      [.createIdentity, .putProfile, .readProfile] :=
  (signUp_identity_persists_no_rollback "a@b.c" "secret" "Ann" "client"
    ⟨.ok "u1", .ok (), false⟩ "u1" "" (by decide) (by decide)
    (Or.inl rfl)).1 rfl rfl rfl

/-- Unfolding lemma: a read that observes the document terminates the retry
recursion immediately. -/
theorem getUserRoleAux_exists (reads : Nat → Option (Option String))
    (attempt retries : Nat) (d : Option String) (h : reads attempt = some d) :
    getUserRoleAux reads attempt retries = roleOfDoc d attempt := by
  cases retries <;> (conv_lhs => rw [getUserRoleAux]) <;> rw [h]

/-- Unfolding lemma: a missing document with retries left recurses on the
next attempt after the 500ms wait. -/
theorem getUserRoleAux_missing_succ (reads : Nat → Option (Option String))
    (attempt r : Nat) (h : reads attempt = none) :
    getUserRoleAux reads attempt (r + 1) = getUserRoleAux reads (attempt + 1) r := by
  conv_lhs => rw [getUserRoleAux]
  rw [h]

/-- Unfolding lemma: a missing document with no retries left fails with
`ProfileNotFound`. -/
theorem getUserRoleAux_missing_zero (reads : Nat → Option (Option String))
    (attempt : Nat) (h : reads attempt = none) :
    getUserRoleAux reads attempt 0 = ⟨.error "User profile not found", attempt + 1⟩ := by
  conv_lhs => rw [getUserRoleAux]
  rw [h]

/-- C5: with the default budget of 3 retries, `getUserRole` is a terminating
bounded-retry computation: it performs at most 4 reads (so at most 3
re-reads, each preceded by a fixed 500ms delay, at most 1500ms in total); if
the profile document is never visible within that budget it fails with the
`ProfileNotFound` message after exactly 4 reads; it succeeds with the stored
role as soon as a read within the budget finds the document with a usable
role; and it fails with the `RoleMissing` message, without further retry,
when the first visible read has no usable role field. -/
theorem getUserRole_bounded_retry (userId : String)
    (reads : Nat → Option (Option String)) (h : userId ≠ "") :
    (getUserRole userId reads 3).attemptsUsed ≤ 4 ∧
    (getUserRole userId reads 3).totalDelayMs ≤ 1500 ∧
    ((∀ k, k ≤ 3 → reads k = none) →
      getUserRole userId reads 3 = ⟨.error "User profile not found", 4⟩) ∧
    (∀ k r, k ≤ 3 → (∀ j, j < k → reads j = none) →
      reads k = some (some r) → r ≠ "" →
      getUserRole userId reads 3 = ⟨.ok r, k + 1⟩) ∧
    (∀ k, k ≤ 3 → (∀ j, j < k → reads j = none) → reads k = some none →
      getUserRole userId reads 3 = ⟨.error "User role not found", k + 1⟩) := by
  have hg : getUserRole userId reads 3 = getUserRoleAux reads 0 3 := by
    simp [getUserRole, h]
  have key : ∀ k, k ≤ 3 → (∀ j, j < k → reads j = none) →
      getUserRoleAux reads 0 3 = getUserRoleAux reads k (3 - k) := by
    intro k hk hj
    interval_cases k
    · rfl
    · rw [getUserRoleAux_missing_succ reads 0 2 (hj 0 (by omega))]
    · rw [getUserRoleAux_missing_succ reads 0 2 (hj 0 (by omega)),
          getUserRoleAux_missing_succ reads 1 1 (hj 1 (by omega))]
    · rw [getUserRoleAux_missing_succ reads 0 2 (hj 0 (by omega)),
          getUserRoleAux_missing_succ reads 1 1 (hj 1 (by omega)),
          getUserRoleAux_missing_succ reads 2 0 (hj 2 (by omega))]
  have hroc : ∀ (d : Option String) (a : Nat),
      (roleOfDoc d a).attemptsUsed = a + 1 := by
    intro d a
    rcases d with _ | role
    · rfl
    · by_cases hr : role = "" <;> simp [roleOfDoc, hr]
  have bound : (getUserRoleAux reads 0 3).attemptsUsed ≤ 4 := by
    rcases h0 : reads 0 with _ | d
    · rw [getUserRoleAux_missing_succ reads 0 2 h0]
      rcases h1 : reads 1 with _ | d
      · rw [getUserRoleAux_missing_succ reads 1 1 h1]
        rcases h2 : reads 2 with _ | d
        · rw [getUserRoleAux_missing_succ reads 2 0 h2]
          rcases h3 : reads 3 with _ | d
          · rw [getUserRoleAux_missing_zero reads 3 h3]
          · rw [getUserRoleAux_exists reads 3 0 d h3, hroc]
        · rw [getUserRoleAux_exists reads 2 1 d h2, hroc]
          omega
      · rw [getUserRoleAux_exists reads 1 2 d h1, hroc]
        omega
    · rw [getUserRoleAux_exists reads 0 3 d h0, hroc]
      omega
  refine ⟨hg ▸ bound, ?_, ?_, ?_, ?_⟩
  · have : (getUserRole userId reads 3).attemptsUsed ≤ 4 := hg ▸ bound
    unfold RoleFetch.totalDelayMs
    omega
  · intro hall
    rw [hg, key 3 (by omega) (fun j hj => hall j (by omega)),
        getUserRoleAux_missing_zero reads 3 (hall 3 (by omega))]
  · intro k r hk hj hr hne
    rw [hg, key k hk hj]
    rw [getUserRoleAux_exists reads k (3 - k) (some r) hr]
    simp [roleOfDoc, hne]
  · intro k hk hj hr
    rw [hg, key k hk hj]
    rw [getUserRoleAux_exists reads k (3 - k) none hr]
    rfl

/-- Witness for C5: a profile that never becomes visible makes
`getUserRole` fail with `ProfileNotFound` after its 4th read. -/
theorem getUserRole_bounded_retry_witness :
    getUserRole "u1" (fun _ => none) 3 =
      ⟨.error "User profile not found", 4⟩ :=
  (getUserRole_bounded_retry "u1" (fun _ => none) (by decide)).2.2.1
    (fun _ _ => rfl)

/-- C6: `getMyTickets` subscribes with the equality filter
`clientId == current uid` (and throws the `NotAuthenticated` message with no
identity); under the store's subscription contract every delivered list is
exactly the full set of stored tickets matching the filter —
so never a ticket of another client — in creation-time-descending order,
while `getAllTickets` subscribes unfiltered and is delivered the full set in
the same order. -/
theorem ticket_subscriptions_filter_order (uid email : String)
    (store : List TicketSnap) :
    getMyTickets (some (uid, email)) = .ok (some uid) ∧
    getMyTickets none = .error "You must be logged in to view tickets" ∧
    (∀ t, t ∈ deliverSnapshot (some uid) store ↔
      t ∈ store ∧ t.clientId = uid) ∧
    List.Sorted byCreatedDesc (deliverSnapshot (some uid) store) ∧
    (∀ t, t ∈ deliverSnapshot getAllTickets store ↔ t ∈ store) ∧
    List.Sorted byCreatedDesc (deliverSnapshot getAllTickets store) := by
  refine ⟨rfl, rfl, ?_, ?_, ?_, ?_⟩
  · intro t
    simp [deliverSnapshot, List.mem_insertionSort, List.mem_filter]
  · exact List.sorted_insertionSort byCreatedDesc _
  · intro t
    simp [deliverSnapshot, getAllTickets, List.mem_insertionSort]
  · exact List.sorted_insertionSort byCreatedDesc _

/-- Witness for C6: concrete subscription facts at a two-ticket store with a
foreign ticket filtered out. -/
theorem ticket_subscriptions_filter_order_witness :
    ⟨"t2", "u1", 5⟩ ∈ deliverSnapshot (some "u1")
        [⟨"t1", "u2", 9⟩, ⟨"t2", "u1", 5⟩] ∧
    "u1" = "u1" :=
  ⟨(ticket_subscriptions_filter_order "u1" "e@x"
      [⟨"t1", "u2", 9⟩, ⟨"t2", "u1", 5⟩]).2.2.1 ⟨"t2", "u1", 5⟩ |>.mpr
      ⟨by simp, rfl⟩, rfl⟩

/-- C7 counterexample: from the reachable state in which `u1` is signed in as
a client, a role-resolution failure whose forced `signOut()` itself fails
leaves the user and role states uncleared — the exception escapes the
catch-block before the `setUser(null)`/`setUserRole(null)` lines — so the
router does not transition to Unauthenticated even though `signOut` was
invoked, refuting the claim's unconditional "forces endSession and
transitions to the Unauthenticated state". -/
theorem router_signout_failure_counterexample :
    ReachableRouter ⟨some "u1", some "client", none, false⟩ ∧
    (routerStep ⟨some "u1", some "client", none, false⟩
        (.signedIn "u1" (.err "boom" false))).2 = true ∧
    (routerStep ⟨some "u1", some "client", none, false⟩
        (.signedIn "u1" (.err "boom" false))).1.user = some "u1" ∧
    (routerStep ⟨some "u1", some "client", none, false⟩
        (.signedIn "u1" (.err "boom" false))).1.userRole = some "client" := by
  refine ⟨?_, rfl, rfl, rfl⟩
  exact ReachableRouter.step (.signedIn "u1" (.ok "client")) ReachableRouter.init

/-- C7 amended: whenever role resolution fails for a present identity the
router invokes `signOut()`; provided that `signOut()` succeeds it transitions
to the Unauthenticated mode with user and role both cleared, while if
`signOut()` itself fails the previous user/role states are left in place.
Moreover, in every reachable router state an identity is present only
together with a resolved role, so no reachable state is
authenticated-but-unroutable because of a resolveRole failure. -/
theorem router_role_failure_forces_signout (s : RouterState) (uid m : String)
    (sOk : Bool) :
    (routerStep s (.signedIn uid (.err m sOk))).2 = true ∧
    (sOk = true →
      (routerStep s (.signedIn uid (.err m sOk))).1 =
        ⟨none, none, some m, false⟩ ∧
      renderMode (routerStep s (.signedIn uid (.err m sOk))).1 =
        some .unauthenticated) ∧
    (sOk = false →
      (routerStep s (.signedIn uid (.err m sOk))).1.user = s.user ∧
      (routerStep s (.signedIn uid (.err m sOk))).1.userRole = s.userRole) ∧
    (∀ s', ReachableRouter s' → s'.user.isSome → s'.userRole.isSome) := by
  refine ⟨?_, fun h => ?_, fun h => ?_, ?_⟩
  · cases sOk <;> rfl
  · subst h
    exact ⟨rfl, rfl⟩
  · subst h
    exact ⟨rfl, rfl⟩
  · intro s' hs'
    induction hs' with
    | init => simp [initialRouterState]
    | step e hr ih =>
      rename_i s₀
      rcases e with ⟨uid₀, res⟩ | _
      · rcases res with role₀ | ⟨m₀, sOk₀⟩
        · simp [routerStep]
        · rcases sOk₀ with _ | _
          · simpa [routerStep] using ih
          · simp [routerStep]
      · simp [routerStep]

/-- Witness for the amended C7: a failure whose forced sign-out succeeds
clears user and role and routes to the Unauthenticated mode. -/
theorem router_role_failure_forces_signout_witness :
    (routerStep ⟨some "u1", some "client", none, false⟩
        (.signedIn "u1" (.err "boom" true))).1 =
      ⟨none, none, some "boom", false⟩ ∧
    renderMode (routerStep ⟨some "u1", some "client", none, false⟩
        (.signedIn "u1" (.err "boom" true))).1 = some .unauthenticated :=
  (router_role_failure_forces_signout ⟨some "u1", some "client", none, false⟩
    "u1" "boom" true).2.1 rfl

/-- C10 (implicit): when role resolution succeeds with a role outside
{client, admin}, the router keeps the identity signed in (no `signOut`), yet
the render dispatch matches none of the three UI modes — the
authenticated user is left facing an empty navigator. -/
theorem router_unknown_role_unroutable (s : RouterState) (uid role : String)
    (h : ¬ (role = "client" ∨ role = "admin")) :
    (routerStep s (.signedIn uid (.ok role))).1 =
      ⟨some uid, some role, none, false⟩ ∧
    (routerStep s (.signedIn uid (.ok role))).2 = false ∧
    renderMode (routerStep s (.signedIn uid (.ok role))).1 = none := by
  push_neg at h
  refine ⟨rfl, rfl, ?_⟩
  simp [routerStep, renderMode, h.1, h.2]

/-- Witness for C10: the role string `"manager"` leaves a signed-in user with
none of the three modes rendered. -/
theorem router_unknown_role_unroutable_witness :
    renderMode (routerStep initialRouterState
        (.signedIn "u1" (.ok "manager"))).1 = none :=
  (router_unknown_role_unroutable initialRouterState "u1" "manager"
    (by decide)).2.2

end TaskRelay
